import Mathlib

/-!
Shallow embedding of the `governance-alerts-cosmos` repository
(packages `governance`, `notifications`, `service`, `types`), together
with theorems settling the specification claims about it.

Times are Go `time.Time`/`time.Duration` values modelled as integer
nanoseconds; `Duration.Hours()` (a `float64` in Go) is modelled as the
exact rational number of hours.  External library calls (HTTP transport,
the Telegram bot send, `time.Parse`, `fmt.Sscanf`) are modelled as
explicit parameters recording their outcome, so every function of the
repository becomes a pure Lean function of its inputs and of those
outcomes.
-/

namespace GovAlerts

/-! ## types package (`internal/types/types.go`) -/

/-- `types.Proposal`: a normalized governance proposal.
`votingStart`/`votingEnd` are `time.Time` values in nanoseconds. -/
structure Proposal where
  id : Nat
  title : String
  description : String
  status : String
  votingStart : Int
  votingEnd : Int
  network : String
  deriving Repr, DecidableEq

/-- `types.AlertConfig`: alert thresholds (Go `int` fields). -/
structure AlertConfig where
  hoursBeforeStart : Int
  hoursBeforeEnd : Int
  checkIntervalMinutes : Int
  notifyOnStartup : Bool
  deriving Repr, DecidableEq

/-- `types.SlackConfig`. -/
structure SlackConfig where
  enabled : Bool
  webhookURL : String
  deriving Repr, DecidableEq

/-! ## notifications package (`internal/notifications/notifications.go`) -/

/-- The `Notifier` as far as channel dispatch is concerned:
`telegramConfigured` models `n.telegram != nil` (the bot is built exactly
when `config.Telegram.Enabled`), and `slack` is the stored Slack config. -/
structure Notifier where
  telegramConfigured : Bool
  slack : SlackConfig
  deriving Repr, DecidableEq

/-- Outcomes of the external transports for one notification:
`telegramSend` is the error (if any) returned by `bot.Send`;
`slackPost` is the result of `http.Post` on the webhook URL — either a
transport error or the HTTP status code of the response. -/
structure Transport where
  telegramSend : Option String
  slackPost : Except String Nat
  deriving Repr

/-- The two notification channels. -/
inductive Channel where
  | telegram
  | slack
  deriving Repr, DecidableEq

/-- `sendTelegramNotification`: wraps a bot-send failure, succeeds otherwise. -/
def sendTelegramNotification (t : Transport) : Option String :=
  match t.telegramSend with
  | some e => some ("failed to send message: " ++ e)
  | none => none

/-- `sendSlackNotification`: POSTs the JSON payload; a transport error is
wrapped, and any response status other than `http.StatusOK` (200) is
reported as an error. -/
def sendSlackNotification (t : Transport) : Option String :=
  match t.slackPost with
  | Except.error e => some ("failed to send request: " ++ e)
  | Except.ok code =>
      if code = 200 then none
      else some ("unexpected status code: " ++ toString code)

/-- `SendNotification`: sends to Telegram if configured and to Slack if
enabled, collecting the wrapped errors in order; returns the list of
channels whose send was invoked together with the first error, if any
(`errors[0]`). -/
def SendNotification (n : Notifier) (t : Transport) :
    List Channel × Option String :=
  let tgAttempt := if n.telegramConfigured then [Channel.telegram] else []
  let tgErrors :=
    if n.telegramConfigured then
      match sendTelegramNotification t with
      | some e => ["telegram: " ++ e]
      | none => []
    else []
  let slAttempt := if n.slack.enabled then [Channel.slack] else []
  let slErrors :=
    if n.slack.enabled then
      match sendSlackNotification t with
      | some e => ["slack: " ++ e]
      | none => []
    else []
  (tgAttempt ++ slAttempt, (tgErrors ++ slErrors).head?)

/-! ## governance package (`internal/governance/governance.go`) -/

/-- `governance.CosmosProposal`: a raw proposal as decoded from the
Cosmos governance REST API. -/
structure CosmosProposal where
  id : String
  title : String
  description : String
  status : String
  votingStart : String
  votingEnd : String
  deriving Repr, DecidableEq

/-- Outcomes of the two standard-library parsers used by
`GetVotingProposals`: `parseRFC3339` models `time.Parse(time.RFC3339, s)`
and `sscanUint` models `fmt.Sscanf(s, "%d", &x)` into a `uint64`. -/
structure Parsers where
  parseRFC3339 : String → Option Int
  sscanUint : String → Option Nat

/-- The status string selecting proposals in their voting period. -/
def votingStatus : String := "PROPOSAL_STATUS_VOTING_PERIOD"

/-- The loop body of `GetVotingProposals` for one raw proposal already
known to be in the voting period: parse both timestamps, apply the
title/description fallbacks, parse the numeric id; `none` when any parse
fails (the Go code `continue`s). -/
def convertProposal (P : Parsers) (network : String) (p : CosmosProposal) :
    Option Proposal :=
  match P.parseRFC3339 p.votingStart with
  | none => none
  | some vs =>
    match P.parseRFC3339 p.votingEnd with
    | none => none
    | some ve =>
      match P.sscanUint p.id with
      | none => none
      | some pid =>
        some
          { id := pid
            title := if p.title = "" then "Proposal " ++ p.id else p.title
            description :=
              if p.description = "" then "No description available"
              else p.description
            status := p.status
            votingStart := vs
            votingEnd := ve
            network := network }

/-- The filtering loop of `GetVotingProposals`: keep the voting-period
proposals that convert, in batch order; skip the rest. -/
def getVotingProposals (P : Parsers) (network : String) :
    List CosmosProposal → List Proposal
  | [] => []
  | p :: rest =>
      if p.status = votingStatus then
        match convertProposal P network p with
        | some q => q :: getVotingProposals P network rest
        | none => getVotingProposals P network rest
      else getVotingProposals P network rest

/-- `GetVotingProposals` end to end: a fetch/unmarshal failure is wrapped
and returned as an error; a successfully decoded batch is filtered and
returned with no error (even when the result is empty). -/
def getVotingProposalsResult (P : Parsers) (network : String)
    (fetched : Except String (List CosmosProposal)) :
    Except String (List Proposal) :=
  match fetched with
  | Except.error e => Except.error ("failed to fetch proposals: " ++ e)
  | Except.ok raws => Except.ok (getVotingProposals P network raws)

/-! ## service package (`internal/service/service.go`) -/

/-- Nanoseconds per hour (`time.Hour` as a Go `Duration`). -/
def nsPerHour : Int := 3600000000000

/-- `time.Duration.Hours()` of `target - now`, as an exact rational. -/
def hoursUntil (target now : Int) : ℚ :=
  ((target - now : Int) : ℚ) / ((nsPerHour : Int) : ℚ)

/-- The two alert kinds a proposal can trigger. -/
inductive AlertKind where
  | startingSoon
  | endingSoon
  deriving Repr, DecidableEq

/-- The start-alert guard of `checkProposal`:
`proposal.VotingStart.After(now)` and then
`hoursUntilStart <= float64(HoursBeforeStart) && hoursUntilStart > 0`. -/
def startDue (alerts : AlertConfig) (p : Proposal) (now : Int) : Bool :=
  if now < p.votingStart then
    decide (hoursUntil p.votingStart now ≤ (alerts.hoursBeforeStart : ℚ))
      && decide (0 < hoursUntil p.votingStart now)
  else false

/-- The end-alert guard of `checkProposal`, same shape with
`VotingEnd` and `HoursBeforeEnd`. -/
def endDue (alerts : AlertConfig) (p : Proposal) (now : Int) : Bool :=
  if now < p.votingEnd then
    decide (hoursUntil p.votingEnd now ≤ (alerts.hoursBeforeEnd : ℚ))
      && decide (0 < hoursUntil p.votingEnd now)
  else false

/-- The set of alerts `checkProposal` decides are due (its two guards,
independent of send outcomes). -/
def evaluate (alerts : AlertConfig) (p : Proposal) (now : Int) :
    List AlertKind :=
  (if startDue alerts p now then [AlertKind.startingSoon] else [])
    ++ (if endDue alerts p now then [AlertKind.endingSoon] else [])

/-- `checkProposal`: run the start block, returning its wrapped error
immediately on a failed send (skipping the end block, as the Go `return`
does); otherwise run the end block the same way.  The first component
records which alert sends were attempted, in order. -/
def checkProposal (alerts : AlertConfig) (send : AlertKind → Option String)
    (p : Proposal) (now : Int) : List AlertKind × Option String :=
  if startDue alerts p now then
    match send AlertKind.startingSoon with
    | some e =>
        ([AlertKind.startingSoon],
          some ("failed to send start notification: " ++ e))
    | none =>
        if endDue alerts p now then
          match send AlertKind.endingSoon with
          | some e =>
              ([AlertKind.startingSoon, AlertKind.endingSoon],
                some ("failed to send end notification: " ++ e))
          | none => ([AlertKind.startingSoon, AlertKind.endingSoon], none)
        else ([AlertKind.startingSoon], none)
  else
    if endDue alerts p now then
      match send AlertKind.endingSoon with
      | some e =>
          ([AlertKind.endingSoon],
            some ("failed to send end notification: " ++ e))
      | none => ([AlertKind.endingSoon], none)
    else ([], none)

/-- The proposal loop of `checkNetworkProposals`: each proposal is
checked in turn and its error, if any, is only logged — the loop always
continues.  Collects the attempted alert sends tagged by proposal id. -/
def runProposals (alerts : AlertConfig)
    (send : Proposal → AlertKind → Option String) (now : Int) :
    List Proposal → List (Nat × AlertKind)
  | [] => []
  | p :: rest =>
      (checkProposal alerts (send p) p now).1.map (fun k => (p.id, k))
        ++ runProposals alerts send now rest

/-- `checkNetworkProposals`: a fetch failure is wrapped and returned;
otherwise every proposal of the batch is checked and the function
returns no error. -/
def checkNetworkProposals (alerts : AlertConfig)
    (send : Proposal → AlertKind → Option String)
    (fetched : Except String (List Proposal)) (now : Int) :
    List (Nat × AlertKind) × Option String :=
  match fetched with
  | Except.error e => ([], some ("failed to get proposals: " ++ e))
  | Except.ok proposals => (runProposals alerts send now proposals, none)

/-- The network loop of `checkProposals`: each network is checked in
turn and its error, if any, is only logged. -/
def runNetworks (alerts : AlertConfig)
    (send : String → Proposal → AlertKind → Option String) (now : Int) :
    List (String × Except String (List Proposal)) →
      List (String × Nat × AlertKind)
  | [] => []
  | (name, fetched) :: rest =>
      (checkNetworkProposals alerts (send name) fetched now).1.map
          (fun x => (name, x))
        ++ runNetworks alerts send now rest

/-- `checkProposals`: one monitoring cycle over the configured networks;
it always returns `nil` to the loop. -/
def checkProposals (alerts : AlertConfig)
    (send : String → Proposal → AlertKind → Option String) (now : Int)
    (networks : List (String × Except String (List Proposal))) :
    List (String × Nat × AlertKind) × Option String :=
  (runNetworks alerts send now networks, none)

/-- The `Service` state relevant to `Stop`: whether `stopChan` has been
closed. -/
structure Service where
  stopClosed : Bool
  deriving Repr, DecidableEq

/-- `Stop` is `close(s.stopChan)`.  Per Go run-time semantics, closing an
already-closed channel panics with "close of closed channel"; the panic
is modelled as `Except.error`. -/
def Stop (s : Service) : Except String Service :=
  if s.stopClosed then Except.error "close of closed channel"
  else Except.ok { stopClosed := true }

/-! ## Helper lemmas -/

theorem startDue_iff (alerts : AlertConfig) (p : Proposal) (now : Int) :
    startDue alerts p now = true ↔
      now < p.votingStart ∧ 0 < hoursUntil p.votingStart now ∧
        hoursUntil p.votingStart now ≤ (alerts.hoursBeforeStart : ℚ) := by
  unfold startDue
  by_cases h : now < p.votingStart
  · simp only [if_pos h, Bool.and_eq_true, decide_eq_true_eq]
    constructor
    · rintro ⟨h1, h2⟩
      exact ⟨h, h2, h1⟩
    · rintro ⟨_, h2, h1⟩
      exact ⟨h1, h2⟩
  · simp [h]

theorem endDue_iff (alerts : AlertConfig) (p : Proposal) (now : Int) :
    endDue alerts p now = true ↔
      now < p.votingEnd ∧ 0 < hoursUntil p.votingEnd now ∧
        hoursUntil p.votingEnd now ≤ (alerts.hoursBeforeEnd : ℚ) := by
  unfold endDue
  by_cases h : now < p.votingEnd
  · simp only [if_pos h, Bool.and_eq_true, decide_eq_true_eq]
    constructor
    · rintro ⟨h1, h2⟩
      exact ⟨h, h2, h1⟩
    · rintro ⟨_, h2, h1⟩
      exact ⟨h1, h2⟩
  · simp [h]

theorem mem_evaluate_start (alerts : AlertConfig) (p : Proposal) (now : Int) :
    AlertKind.startingSoon ∈ evaluate alerts p now ↔ startDue alerts p now = true := by
  cases hs : startDue alerts p now <;> cases he : endDue alerts p now <;>
    simp [evaluate, hs, he]

theorem mem_evaluate_end (alerts : AlertConfig) (p : Proposal) (now : Int) :
    AlertKind.endingSoon ∈ evaluate alerts p now ↔ endDue alerts p now = true := by
  cases hs : startDue alerts p now <;> cases he : endDue alerts p now <;>
    simp [evaluate, hs, he]

theorem nsPerHour_cast_pos : (0 : ℚ) < ((nsPerHour : Int) : ℚ) := by
  norm_num [nsPerHour]

/-- When every send succeeds, the alerts `checkProposal` attempts are
exactly the ones `evaluate` declares due. -/
theorem checkProposal_attempts_of_ok (alerts : AlertConfig)
    (send : AlertKind → Option String) (p : Proposal) (now : Int)
    (h : ∀ k, send k = none) :
    (checkProposal alerts send p now).1 = evaluate alerts p now := by
  cases hs : startDue alerts p now <;> cases he : endDue alerts p now <;>
    simp [checkProposal, evaluate, hs, he, h]

/-! ## Claim theorems: notifications -/

/-- C10: with the chat bot not configured and the webhook disabled,
`SendNotification` attempts no delivery and returns success. -/
theorem SendNotification_no_channels (url : String) (t : Transport) :
    SendNotification
        { telegramConfigured := false
          slack := { enabled := false, webhookURL := url } } t
      = ([], none) := rfl

/-- C6 counterexample: the claim "send succeeds iff the status code is in
the 2xx range" fails at status 201 — the code reports an error for any
status other than 200, although 201 is in the 2xx range. -/
theorem sendSlack_2xx_cex :
    ¬ ((sendSlackNotification
          { telegramSend := none, slackPost := Except.ok 201 } = none) ↔
        (200 ≤ 201 ∧ 201 < 300)) := by
  simp [sendSlackNotification]

/-- C6 (amended): a webhook delivery succeeds iff the POST returned a
response with status code exactly 200 (`http.StatusOK`); a transport
error or any other status code, 2xx included, is reported as an error. -/
theorem sendSlack_status_spec (t : Transport) :
    sendSlackNotification t = none ↔ t.slackPost = Except.ok 200 := by
  rcases t with ⟨tg, sp⟩
  rcases sp with e | code
  · simp [sendSlackNotification]
  · by_cases h : code = 200 <;> simp [sendSlackNotification, h]

/-- C5 counterexample: the first `Stop` succeeds, but a second `Stop` on
the same service faults — `close` of an already-closed channel panics —
so stop is not idempotent. -/
theorem Stop_twice_faults :
    Stop { stopClosed := false } = Except.ok { stopClosed := true } ∧
    Stop { stopClosed := true } = Except.error "close of closed channel" :=
  ⟨rfl, rfl⟩

/-- C5 (amended): the first stop call closes the stop channel, signalling
the loop to terminate; a second stop call on the same service panics with
"close of closed channel" instead of being a safe no-op. -/
theorem Stop_spec (s : Service) :
    (s.stopClosed = false → Stop s = Except.ok { stopClosed := true }) ∧
    (s.stopClosed = true → Stop s = Except.error "close of closed channel") := by
  rcases s with ⟨b⟩
  cases b <;> simp [Stop]

theorem Stop_spec_witness :
    Stop { stopClosed := false } = Except.ok { stopClosed := true } :=
  (Stop_spec { stopClosed := false }).1 rfl

/-- C2: `SendNotification` invokes the send of every enabled channel —
the attempted-channel list depends only on which channels are enabled,
never on a send outcome, so one channel's failure cannot prevent the
other's attempt; the call succeeds iff every enabled channel's send
succeeded, and otherwise the first encountered error is returned. -/
theorem SendNotification_spec (n : Notifier) (t : Transport) :
    ((SendNotification n t).1 =
      (if n.telegramConfigured then [Channel.telegram] else [])
        ++ (if n.slack.enabled then [Channel.slack] else [])) ∧
    ((SendNotification n t).2 = none ↔
      (n.telegramConfigured = true → sendTelegramNotification t = none) ∧
      (n.slack.enabled = true → sendSlackNotification t = none)) ∧
    (∀ e, n.telegramConfigured = true → sendTelegramNotification t = some e →
      (SendNotification n t).2 = some ("telegram: " ++ e)) ∧
    (∀ e, n.slack.enabled = true →
      (n.telegramConfigured = true → sendTelegramNotification t = none) →
      sendSlackNotification t = some e →
      (SendNotification n t).2 = some ("slack: " ++ e)) := by
  rcases n with ⟨tg, ⟨sl, url⟩⟩
  cases tg <;> cases sl <;>
    cases hT : sendTelegramNotification t <;>
      cases hS : sendSlackNotification t <;>
        simp [SendNotification, hT, hS]

theorem SendNotification_spec_witness :
    (SendNotification { telegramConfigured := true
                        slack := { enabled := true, webhookURL := "u" } }
        { telegramSend := some "boom", slackPost := Except.ok 500 }).1
      = [Channel.telegram, Channel.slack] ∧
    (SendNotification { telegramConfigured := true
                        slack := { enabled := true, webhookURL := "u" } }
        { telegramSend := some "boom", slackPost := Except.ok 500 }).2
      = some ("telegram: " ++ ("failed to send message: " ++ "boom")) := by
  have h := SendNotification_spec
    { telegramConfigured := true
      slack := { enabled := true, webhookURL := "u" } }
    { telegramSend := some "boom", slackPost := Except.ok 500 }
  refine ⟨?_, h.2.2.1 ("failed to send message: " ++ "boom") rfl rfl⟩
  rw [h.1]
  rfl

/-! ## Claim theorems: threshold evaluation and the monitoring cycle -/

/-- C1: STARTING_SOON is generated iff `votingStart` is strictly after
`now` and the number of hours until `votingStart` is strictly positive
and at most `hoursBeforeStart`; the same law holds for ENDING_SOON with
`votingEnd`/`hoursBeforeEnd`.  At the boundary, a proposal exactly
`hoursBeforeStart` hours away fires, and one whose start equals `now`
does not. -/
theorem evaluate_threshold_spec (alerts : AlertConfig) (p : Proposal)
    (now : Int) :
    (AlertKind.startingSoon ∈ evaluate alerts p now ↔
      now < p.votingStart ∧ 0 < hoursUntil p.votingStart now ∧
        hoursUntil p.votingStart now ≤ (alerts.hoursBeforeStart : ℚ)) ∧
    (AlertKind.endingSoon ∈ evaluate alerts p now ↔
      now < p.votingEnd ∧ 0 < hoursUntil p.votingEnd now ∧
        hoursUntil p.votingEnd now ≤ (alerts.hoursBeforeEnd : ℚ)) ∧
    (0 < alerts.hoursBeforeStart →
      p.votingStart - now = alerts.hoursBeforeStart * nsPerHour →
      AlertKind.startingSoon ∈ evaluate alerts p now) ∧
    (p.votingStart = now → AlertKind.startingSoon ∉ evaluate alerts p now) := by
  refine ⟨(mem_evaluate_start alerts p now).trans (startDue_iff alerts p now),
    (mem_evaluate_end alerts p now).trans (endDue_iff alerts p now), ?_, ?_⟩
  · intro h1 h2
    have hns : (0 : Int) < nsPerHour := by norm_num [nsPerHour]
    have hpos : 0 < alerts.hoursBeforeStart * nsPerHour := mul_pos h1 hns
    have hlt : now < p.votingStart := by linarith [h2, hpos]
    have key : hoursUntil p.votingStart now = (alerts.hoursBeforeStart : ℚ) := by
      rw [hoursUntil, h2]
      push_cast
      rw [mul_div_assoc, div_self (by norm_num [nsPerHour] : ((nsPerHour : Int) : ℚ) ≠ 0), mul_one]
    rw [mem_evaluate_start, startDue_iff]
    refine ⟨hlt, ?_, ?_⟩
    · rw [key]
      exact_mod_cast h1
    · rw [key]
  · intro h
    rw [mem_evaluate_start, startDue_iff]
    rintro ⟨hlt, -, -⟩
    rw [h] at hlt
    exact lt_irrefl _ hlt

theorem evaluate_threshold_spec_witness :
    AlertKind.startingSoon ∈
      evaluate
        { hoursBeforeStart := 24, hoursBeforeEnd := 12,
          checkIntervalMinutes := 30, notifyOnStartup := false }
        { id := 1, title := "t", description := "d",
          status := "PROPOSAL_STATUS_VOTING_PERIOD",
          votingStart := 86400000000000, votingEnd := 90000000000000,
          network := "n" }
        0 :=
  (evaluate_threshold_spec _ _ _).2.2.1 (by norm_num)
    (by norm_num [nsPerHour])

theorem runNetworks_append (alerts : AlertConfig)
    (send : String → Proposal → AlertKind → Option String) (now : Int)
    (l1 l2 : List (String × Except String (List Proposal))) :
    runNetworks alerts send now (l1 ++ l2)
      = runNetworks alerts send now l1 ++ runNetworks alerts send now l2 := by
  induction l1 with
  | nil => simp [runNetworks]
  | cons hd tl ih =>
    rcases hd with ⟨name, fetched⟩
    simp [runNetworks, ih]

/-- C3: a cycle processes every configured network independently — a
failing fetch for one network contributes nothing but leaves every other
network's alert attempts unchanged, the failure is reported only at the
network level, and the cycle itself returns no error to the loop. -/
theorem checkProposals_network_isolation (alerts : AlertConfig)
    (send : String → Proposal → AlertKind → Option String) (now : Int)
    (pre post : List (String × Except String (List Proposal)))
    (name : String) (e : String) :
    ((checkProposals alerts send now (pre ++ (name, Except.error e) :: post)).1
        = (checkProposals alerts send now pre).1
            ++ (checkProposals alerts send now post).1) ∧
    ((checkProposals alerts send now (pre ++ (name, Except.error e) :: post)).2
        = none) ∧
    (checkNetworkProposals alerts (send name) (Except.error e) now
        = ([], some ("failed to get proposals: " ++ e))) := by
  refine ⟨?_, rfl, rfl⟩
  simp [checkProposals, runNetworks_append, runNetworks, checkNetworkProposals]

theorem runProposals_append (alerts : AlertConfig)
    (send : Proposal → AlertKind → Option String) (now : Int)
    (l1 l2 : List Proposal) :
    runProposals alerts send now (l1 ++ l2)
      = runProposals alerts send now l1 ++ runProposals alerts send now l2 := by
  induction l1 with
  | nil => simp [runProposals]
  | cons hd tl ih => simp [runProposals, ih]

/-- C4 counterexample: a proposal whose start and end alerts are both due
in the same cycle, with a failing start send — `checkProposal` returns the
start error immediately and the end alert is never attempted, refuting
"both alerts are attempted even if sending the start alert fails". -/
theorem checkProposal_end_skipped_cex :
    endDue
        { hoursBeforeStart := 24, hoursBeforeEnd := 24,
          checkIntervalMinutes := 30, notifyOnStartup := false }
        { id := 1, title := "t", description := "d",
          status := "PROPOSAL_STATUS_VOTING_PERIOD",
          votingStart := 3600000000000, votingEnd := 7200000000000,
          network := "n" }
        0 = true ∧
    AlertKind.endingSoon ∉
      (checkProposal
          { hoursBeforeStart := 24, hoursBeforeEnd := 24,
            checkIntervalMinutes := 30, notifyOnStartup := false }
          (fun _ => some "boom")
          { id := 1, title := "t", description := "d",
            status := "PROPOSAL_STATUS_VOTING_PERIOD",
            votingStart := 3600000000000, votingEnd := 7200000000000,
            network := "n" }
          0).1 := by
  have hs : startDue
      { hoursBeforeStart := 24, hoursBeforeEnd := 24,
        checkIntervalMinutes := 30, notifyOnStartup := false }
      { id := 1, title := "t", description := "d",
        status := "PROPOSAL_STATUS_VOTING_PERIOD",
        votingStart := 3600000000000, votingEnd := 7200000000000,
        network := "n" }
      0 = true := by
    rw [startDue_iff]
    refine ⟨by norm_num, ?_, ?_⟩ <;> norm_num [hoursUntil, nsPerHour]
  have he : endDue
      { hoursBeforeStart := 24, hoursBeforeEnd := 24,
        checkIntervalMinutes := 30, notifyOnStartup := false }
      { id := 1, title := "t", description := "d",
        status := "PROPOSAL_STATUS_VOTING_PERIOD",
        votingStart := 3600000000000, votingEnd := 7200000000000,
        network := "n" }
      0 = true := by
    rw [endDue_iff]
    refine ⟨by norm_num, ?_, ?_⟩ <;> norm_num [hoursUntil, nsPerHour]
  refine ⟨he, ?_⟩
  simp [checkProposal, hs]

/-- C4 (amended): within `checkProposal`, a failed start-alert send makes
the function return that error immediately, so the end alert is not
attempted for that proposal in that call; across proposals the isolation
does hold — each proposal of a batch is checked regardless of the send
outcomes (and hence errors) of the ones before it. -/
theorem checkProposal_isolation (alerts : AlertConfig)
    (send : AlertKind → Option String)
    (sendN : Proposal → AlertKind → Option String)
    (p : Proposal) (now : Int) (e : String) (pre post : List Proposal) :
    (startDue alerts p now = true → send AlertKind.startingSoon = some e →
      checkProposal alerts send p now =
        ([AlertKind.startingSoon],
          some ("failed to send start notification: " ++ e))) ∧
    (runProposals alerts sendN now (pre ++ p :: post)
      = runProposals alerts sendN now pre
          ++ (checkProposal alerts (sendN p) p now).1.map (fun k => (p.id, k))
          ++ runProposals alerts sendN now post) := by
  constructor
  · intro hs hsend
    simp [checkProposal, hs, hsend]
  · rw [runProposals_append]
    simp [runProposals]

theorem checkProposal_isolation_witness :
    checkProposal
        { hoursBeforeStart := 24, hoursBeforeEnd := 24,
          checkIntervalMinutes := 30, notifyOnStartup := false }
        (fun _ => some "boom")
        { id := 1, title := "t", description := "d",
          status := "PROPOSAL_STATUS_VOTING_PERIOD",
          votingStart := 3600000000000, votingEnd := 7200000000000,
          network := "n" }
        0
      = ([AlertKind.startingSoon],
          some ("failed to send start notification: " ++ "boom")) := by
  have h := checkProposal_isolation
    { hoursBeforeStart := 24, hoursBeforeEnd := 24,
      checkIntervalMinutes := 30, notifyOnStartup := false }
    (fun _ => some "boom") (fun _ _ => none)
    { id := 1, title := "t", description := "d",
      status := "PROPOSAL_STATUS_VOTING_PERIOD",
      votingStart := 3600000000000, votingEnd := 7200000000000,
      network := "n" }
    0 "boom" [] []
  refine h.1 ?_ rfl
  rw [startDue_iff]
  refine ⟨by norm_num, ?_, ?_⟩ <;> norm_num [hoursUntil, nsPerHour]

/-! ## Claim theorems: proposal fetching and normalization -/

theorem getVotingProposals_append (P : Parsers) (net : String)
    (l1 l2 : List CosmosProposal) :
    getVotingProposals P net (l1 ++ l2)
      = getVotingProposals P net l1 ++ getVotingProposals P net l2 := by
  induction l1 with
  | nil => simp [getVotingProposals]
  | cons hd tl ih =>
    simp only [List.cons_append, getVotingProposals]
    by_cases hst : hd.status = votingStatus
    · simp only [if_pos hst]
      cases hc : convertProposal P net hd <;> simp [ih]
    · simp [hst, ih]

/-- C7: a voting-period proposal whose start or end timestamp fails to
parse, or whose id is non-numeric, is excluded from the batch result
without aborting the fetch — the siblings before and after it are
returned exactly as they would be without it. -/
theorem getVotingProposals_skip_bad (P : Parsers) (net : String)
    (pre post : List CosmosProposal) (bad : CosmosProposal)
    (h : P.parseRFC3339 bad.votingStart = none ∨
         P.parseRFC3339 bad.votingEnd = none ∨
         P.sscanUint bad.id = none) :
    getVotingProposals P net (pre ++ bad :: post)
      = getVotingProposals P net pre ++ getVotingProposals P net post := by
  have hconv : convertProposal P net bad = none := by
    rcases h with h | h | h
    · simp [convertProposal, h]
    · cases h1 : P.parseRFC3339 bad.votingStart <;>
        simp [convertProposal, h, h1]
    · cases h1 : P.parseRFC3339 bad.votingStart <;>
        cases h2 : P.parseRFC3339 bad.votingEnd <;>
          simp [convertProposal, h, h1, h2]
  rw [getVotingProposals_append]
  have hbad : getVotingProposals P net (bad :: post)
      = getVotingProposals P net post := by
    by_cases hst : bad.status = votingStatus <;>
      simp [getVotingProposals, hst, hconv]
  rw [hbad]

theorem getVotingProposals_skip_bad_witness :
    getVotingProposals
        ⟨fun s => if s = "" then none else some 0, fun s => some s.length⟩
        "n"
        ([⟨"1", "", "", votingStatus, "a", "b"⟩]
          ++ ⟨"2", "", "", votingStatus, "", "b"⟩ :: [])
      = getVotingProposals
          ⟨fun s => if s = "" then none else some 0, fun s => some s.length⟩
          "n" [⟨"1", "", "", votingStatus, "a", "b"⟩]
        ++ getVotingProposals
            ⟨fun s => if s = "" then none else some 0, fun s => some s.length⟩
            "n" [] :=
  getVotingProposals_skip_bad _ "n" _ _ _ (Or.inl (by simp))

theorem getVotingProposals_nil_of_no_voting (P : Parsers) (net : String)
    (raws : List CosmosProposal)
    (h : ∀ p ∈ raws, p.status ≠ votingStatus) :
    getVotingProposals P net raws = [] := by
  induction raws with
  | nil => rfl
  | cons hd tl ih =>
    have hhd := h hd (by simp)
    simp only [getVotingProposals, if_neg hhd]
    exact ih (fun p hp => h p (by simp [hp]))

/-- C8: the fetch keeps exactly the voting-period proposals — every
returned proposal comes from a raw voting-period proposal (all other
statuses are dropped), when every voting-period raw parses the result has
one entry per voting-period raw, and a batch with no voting-period
proposal yields `ok []`, not an error. -/
theorem getVotingProposals_status_spec (P : Parsers) (net : String)
    (raws : List CosmosProposal) :
    ((∀ p ∈ raws, p.status ≠ votingStatus) →
      getVotingProposalsResult P net (Except.ok raws) = Except.ok []) ∧
    (∀ q ∈ getVotingProposals P net raws,
      ∃ p, p ∈ raws ∧ p.status = votingStatus ∧
        convertProposal P net p = some q) ∧
    ((∀ p ∈ raws, p.status = votingStatus →
        (convertProposal P net p).isSome) →
      (getVotingProposals P net raws).length
        = (raws.filter (fun p => decide (p.status = votingStatus))).length) := by
  refine ⟨?_, ?_, ?_⟩
  · intro h
    simp [getVotingProposalsResult,
      getVotingProposals_nil_of_no_voting P net raws h]
  · induction raws with
    | nil => simp [getVotingProposals]
    | cons hd tl ih =>
      intro q hq
      by_cases hst : hd.status = votingStatus
      · rcases hc : convertProposal P net hd with _ | q0
        · simp only [getVotingProposals, if_pos hst, hc] at hq
          obtain ⟨p, hp, hps, hpc⟩ := ih q hq
          exact ⟨p, by simp [hp], hps, hpc⟩
        · simp only [getVotingProposals, if_pos hst, hc, List.mem_cons] at hq
          rcases hq with rfl | hq
          · exact ⟨hd, by simp, hst, hc⟩
          · obtain ⟨p, hp, hps, hpc⟩ := ih q hq
            exact ⟨p, by simp [hp], hps, hpc⟩
      · simp only [getVotingProposals, if_neg hst] at hq
        obtain ⟨p, hp, hps, hpc⟩ := ih q hq
        exact ⟨p, by simp [hp], hps, hpc⟩
  · induction raws with
    | nil => intro _; rfl
    | cons hd tl ih =>
      intro h
      have htl := ih (fun p hp hs => h p (by simp [hp]) hs)
      by_cases hst : hd.status = votingStatus
      · have hsome := h hd (by simp) hst
        rcases hc : convertProposal P net hd with _ | q
        · rw [hc] at hsome
          simp at hsome
        · simp [getVotingProposals, hst, hc, List.filter_cons, htl]
      · simp [getVotingProposals, hst, List.filter_cons, htl]

theorem getVotingProposals_status_spec_witness :
    getVotingProposalsResult ⟨fun _ => some 0, fun _ => some 1⟩ "n"
        (Except.ok [⟨"2", "", "", "PROPOSAL_STATUS_PASSED", "a", "b"⟩])
      = Except.ok [] ∧
    (getVotingProposals ⟨fun _ => some 0, fun _ => some 1⟩ "n"
        [⟨"1", "", "", votingStatus, "a", "b"⟩,
         ⟨"2", "", "", "PROPOSAL_STATUS_PASSED", "a", "b"⟩]).length
      = (([⟨"1", "", "", votingStatus, "a", "b"⟩,
           ⟨"2", "", "", "PROPOSAL_STATUS_PASSED", "a", "b"⟩] :
            List CosmosProposal).filter
          (fun p => decide (p.status = votingStatus))).length :=
  ⟨(getVotingProposals_status_spec ⟨fun _ => some 0, fun _ => some 1⟩ "n"
        [⟨"2", "", "", "PROPOSAL_STATUS_PASSED", "a", "b"⟩]).1
      (by decide),
   (getVotingProposals_status_spec ⟨fun _ => some 0, fun _ => some 1⟩ "n"
        [⟨"1", "", "", votingStatus, "a", "b"⟩,
         ⟨"2", "", "", "PROPOSAL_STATUS_PASSED", "a", "b"⟩]).2.2
      (by decide)⟩

/-- C9: for a retained proposal, an empty raw title becomes
`"Proposal {id}"` built from the raw identifier, an empty raw description
becomes the fixed placeholder, and non-empty values pass through
unchanged. -/
theorem convertProposal_fallbacks (P : Parsers) (net : String)
    (p : CosmosProposal) (q : Proposal)
    (h : convertProposal P net p = some q) :
    (p.title = "" → q.title = "Proposal " ++ p.id) ∧
    (p.title ≠ "" → q.title = p.title) ∧
    (p.description = "" → q.description = "No description available") ∧
    (p.description ≠ "" → q.description = p.description) := by
  rcases hvs : P.parseRFC3339 p.votingStart with _ | vs
  · simp [convertProposal, hvs] at h
  rcases hve : P.parseRFC3339 p.votingEnd with _ | ve
  · simp [convertProposal, hvs, hve] at h
  rcases hid : P.sscanUint p.id with _ | pid
  · simp [convertProposal, hvs, hve, hid] at h
  simp only [convertProposal, hvs, hve, hid, Option.some_inj] at h
  refine ⟨?_, ?_, ?_, ?_⟩ <;> intro ht <;> simp [← h, ht]

theorem convertProposal_fallbacks_witness :
    (Proposal.mk 7 ("Proposal " ++ "7") "No description available"
        votingStatus 0 0 "n").title = "Proposal " ++ "7" :=
  (convertProposal_fallbacks ⟨fun _ => some 0, fun _ => some 7⟩ "n"
      ⟨"7", "", "", votingStatus, "a", "b"⟩
      (Proposal.mk 7 ("Proposal " ++ "7") "No description available"
        votingStatus 0 0 "n") rfl).1 rfl

end GovAlerts
